import Mathlib

/-!
Verification of the StockPulse pipeline orchestration and persistence engine.

This file shallowly embeds the relevant parts of the repository:
* `run_extraction` and its per-symbol result-processing loop
  (src/backend/services/pipeline_service.py),
* the batch upsert loops of the time-series store and the screener query
  builder (src/backend/services/timeseries_store.py),
* the degraded-mode cache and the top-movers sorted sets
  (src/backend/services/cache_service.py),
* the extractor's rate limiter
  (src/backend/data_extraction/extractors/screener_extractor.py),

and proves the specification's claims about them.  Machine time is modelled
as rational seconds, Python floats as rationals, dictionaries as
association lists.
-/

namespace StockPulse

/-- Job lifecycle status (`JobStatus` enum in pipeline_service.py). -/
inductive JobStatus
  | pending
  | running
  | success
  | partial_success
  | failed
  | cancelled
deriving DecidableEq, Repr

/-- Payload of one adapter result (`result.data` in the source): a dictionary
of named numeric fields. -/
abbrev Payload := List (String × Rat)

/-- One per-symbol outcome from the source adapter (`extract_bulk_quotes`):
a success/failure discriminant (`result.status.value == "success"`), the
payload and an error string. -/
structure ExtractResult where
  success : Bool
  data : Payload := []
  error : String := ""
deriving DecidableEq, Repr

/-- `PipelineJob` dataclass of pipeline_service.py.  Timestamps are rational
seconds. -/
structure PipelineJob where
  job_id : String := ""
  pipeline_type : String := "quotes"
  symbols : List String := []
  status : JobStatus := JobStatus.pending
  created_at : Rat := 0
  started_at : Rat := 0
  completed_at : Rat := 0
  total_symbols : Nat := 0
  processed_symbols : Nat := 0
  successful_symbols : Nat := 0
  failed_symbols : Nat := 0
  errors : List (String × String) := []
  results : List (String × Payload) := []
deriving DecidableEq, Repr

/-- `PipelineMetrics` dataclass of pipeline_service.py (the fields the
claims are about). -/
structure PipelineMetrics where
  total_jobs_run : Nat := 0
  successful_jobs : Nat := 0
  failed_jobs : Nat := 0
  total_symbols_processed : Nat := 0
  last_run_time : Option Rat := none
  avg_job_duration_seconds : Rat := 0
  expected_daily_symbols : Nat := 0
  received_daily_symbols : Nat := 0
  missing_symbols : List String := []
deriving DecidableEq, Repr

/-- A fresh `PipelineMetrics()` with Python dataclass defaults. -/
def initMetrics : PipelineMetrics := {}

/-- One iteration of the `for symbol, result in results.items()` loop of
`run_extraction` (pipeline_service.py lines 331-353): increment
`processed_symbols`, then on success increment `successful_symbols` and
record the payload, else increment `failed_symbols` and append an error
entry. -/
def processResult (job : PipelineJob) (symbol : String) (r : ExtractResult) :
    PipelineJob :=
  let job := { job with processed_symbols := job.processed_symbols + 1 }
  if r.success then
    { job with
        successful_symbols := job.successful_symbols + 1
        results := job.results ++ [(symbol, r.data)] }
  else
    { job with
        failed_symbols := job.failed_symbols + 1
        errors := job.errors ++ [(symbol, r.error)] }

/-- The whole result-processing loop of `run_extraction`. -/
def applyResults (job : PipelineJob) (results : List (String × ExtractResult)) :
    PipelineJob :=
  results.foldl (fun j sr => processResult j sr.1 sr.2) job

/-- Final status classification of `run_extraction` (pipeline_service.py
lines 376-381). -/
def classifyJob (job : PipelineJob) : JobStatus :=
  if job.successful_symbols = job.total_symbols then JobStatus.success
  else if 0 < job.successful_symbols then JobStatus.partial_success
  else JobStatus.failed

/-- Metrics update after a job completes without raising
(pipeline_service.py lines 385-399): count the job, classify it into
successful/failed jobs, accumulate symbols, record the last run time, and
fold this job's duration into the running average
`(old_avg * (n - 1) + duration) / n` with `n` the post-increment
`total_jobs_run`. -/
def updateMetricsOnComplete (m : PipelineMetrics) (job : PipelineJob) :
    PipelineMetrics :=
  let m := { m with total_jobs_run := m.total_jobs_run + 1 }
  let m :=
    if job.status = JobStatus.success ∨ job.status = JobStatus.partial_success then
      { m with successful_jobs := m.successful_jobs + 1 }
    else
      { m with failed_jobs := m.failed_jobs + 1 }
  let m := { m with
      total_symbols_processed := m.total_symbols_processed + job.successful_symbols
      last_run_time := some job.completed_at }
  let duration := job.completed_at - job.started_at
  let total_duration := m.avg_job_duration_seconds * ((m.total_jobs_run : Rat) - 1)
  { m with avg_job_duration_seconds :=
      (total_duration + duration) / (m.total_jobs_run : Rat) }

/-- The completing path of `run_extraction` (pipeline_service.py lines
288-399): create the job with `total_symbols = len(symbols)`, run the
processing loop over the adapter's per-symbol results, update
received/missing tracking, classify the final status, stamp completion and
fold the job into the metrics.  `t_start`/`t_end` are the clock readings
at job start and completion. -/
def run_extraction (symbols : List String)
    (results : List (String × ExtractResult)) (t_start t_end : Rat)
    (metrics : PipelineMetrics) : PipelineJob × PipelineMetrics :=
  let job : PipelineJob :=
    { pipeline_type := "quotes"
      symbols := symbols
      status := JobStatus.pending
      created_at := t_start
      total_symbols := symbols.length }
  let job := { job with status := JobStatus.running, started_at := t_start }
  let job := applyResults job results
  let received := (results.filter (fun sr => sr.2.success)).map (fun sr => sr.1)
  let metrics := { metrics with
      received_daily_symbols := received.length
      missing_symbols := symbols.filter (fun s => !received.contains s) }
  let job := { job with status := classifyJob job, completed_at := t_end }
  let metrics := updateMetricsOnComplete metrics job
  (job, metrics)

theorem processResult_total (job : PipelineJob) (s : String) (r : ExtractResult) :
    (processResult job s r).total_symbols = job.total_symbols := by
  unfold processResult
  dsimp only
  split <;> rfl

theorem processResult_started_at (job : PipelineJob) (s : String)
    (r : ExtractResult) :
    (processResult job s r).started_at = job.started_at := by
  unfold processResult
  dsimp only
  split <;> rfl

theorem applyResults_started_at (results : List (String × ExtractResult))
    (job : PipelineJob) :
    (applyResults job results).started_at = job.started_at := by
  induction results generalizing job with
  | nil => rfl
  | cons sr rest ih =>
      unfold applyResults at ih ⊢
      rw [List.foldl_cons, ih, processResult_started_at]

theorem processResult_counts (job : PipelineJob) (s : String) (r : ExtractResult)
    (h : job.processed_symbols = job.successful_symbols + job.failed_symbols) :
    (processResult job s r).processed_symbols
      = (processResult job s r).successful_symbols
        + (processResult job s r).failed_symbols := by
  unfold processResult
  dsimp only
  split <;> dsimp only <;> omega

theorem applyResults_total (results : List (String × ExtractResult))
    (job : PipelineJob) :
    (applyResults job results).total_symbols = job.total_symbols := by
  induction results generalizing job with
  | nil => rfl
  | cons sr rest ih =>
      unfold applyResults at ih ⊢
      rw [List.foldl_cons, ih, processResult_total]

theorem applyResults_counts (results : List (String × ExtractResult))
    (job : PipelineJob)
    (h : job.processed_symbols = job.successful_symbols + job.failed_symbols) :
    (applyResults job results).processed_symbols
      = (applyResults job results).successful_symbols
        + (applyResults job results).failed_symbols := by
  induction results generalizing job with
  | nil => exact h
  | cons sr rest ih =>
      unfold applyResults at ih ⊢
      rw [List.foldl_cons]
      exact ih _ (processResult_counts job sr.1 sr.2 h)

theorem classifyJob_spec (job : PipelineJob) :
    (job.successful_symbols = job.total_symbols →
        classifyJob job = JobStatus.success)
    ∧ (0 < job.successful_symbols ∧ job.successful_symbols < job.total_symbols →
        classifyJob job = JobStatus.partial_success)
    ∧ (job.successful_symbols = 0 ∧ 0 < job.total_symbols →
        classifyJob job = JobStatus.failed) := by
  unfold classifyJob
  refine ⟨fun h => ?_, fun h => ?_, fun h => ?_⟩
  · simp [h]
  · rw [if_neg (by omega), if_pos h.1]
  · rw [if_neg (by omega), if_neg (by omega)]

/-- C1 counterexample: a job over an empty identifier list finalizes with
`successful_symbols = 0`, yet its status is SUCCESS, not FAILED — the
source checks `successful == total` first, so the claim's clause
"`successful == 0` implies FAILED" fails at `total = 0`. -/
theorem C1_counterexample_empty_job :
    (run_extraction [] [] 0 1 initMetrics).1.successful_symbols = 0
    ∧ (run_extraction [] [] 0 1 initMetrics).1.status ≠ JobStatus.failed := by
  constructor
  · rfl
  · decide

/-- C1 (amended): for every job finalized by `run_extraction`,
`successful = total` gives SUCCESS, `0 < successful < total` gives
PARTIAL_SUCCESS, and `successful = 0` gives FAILED provided
`total_symbols > 0` (at `total = 0` the first rule wins and the job is
SUCCESS). -/
theorem C1_status_classification (symbols : List String)
    (results : List (String × ExtractResult)) (t0 t1 : Rat)
    (m : PipelineMetrics) :
    ((run_extraction symbols results t0 t1 m).1.successful_symbols
        = (run_extraction symbols results t0 t1 m).1.total_symbols →
      (run_extraction symbols results t0 t1 m).1.status = JobStatus.success)
    ∧ (0 < (run_extraction symbols results t0 t1 m).1.successful_symbols
        ∧ (run_extraction symbols results t0 t1 m).1.successful_symbols
          < (run_extraction symbols results t0 t1 m).1.total_symbols →
      (run_extraction symbols results t0 t1 m).1.status
        = JobStatus.partial_success)
    ∧ ((run_extraction symbols results t0 t1 m).1.successful_symbols = 0
        ∧ 0 < (run_extraction symbols results t0 t1 m).1.total_symbols →
      (run_extraction symbols results t0 t1 m).1.status = JobStatus.failed) := by
  unfold run_extraction
  dsimp only
  exact classifyJob_spec _

/-- Witness for C1: concrete jobs exercising all three classification
branches. -/
theorem C1_status_classification_witness :
    (run_extraction ["A"] [("A", ⟨true, [], ""⟩)] 0 1 initMetrics).1.status
      = JobStatus.success
    ∧ (run_extraction ["A", "B"] [("A", ⟨true, [], ""⟩), ("B", ⟨false, [], "boom"⟩)]
        0 1 initMetrics).1.status = JobStatus.partial_success
    ∧ (run_extraction ["A"] [("A", ⟨false, [], "boom"⟩)] 0 1 initMetrics).1.status
      = JobStatus.failed :=
  ⟨(C1_status_classification ["A"] [("A", ⟨true, [], ""⟩)] 0 1 initMetrics).1
      (by decide),
   (C1_status_classification ["A", "B"]
      [("A", ⟨true, [], ""⟩), ("B", ⟨false, [], "boom"⟩)] 0 1 initMetrics).2.1
      (by decide),
   (C1_status_classification ["A"] [("A", ⟨false, [], "boom"⟩)] 0 1
      initMetrics).2.2 (by decide)⟩

/-- C4: at completion `processed_symbols = successful_symbols +
failed_symbols`, and `total_symbols` equals the length of the requested
identifier list, fixed at creation and untouched by the processing loop,
the classification and the metrics update. -/
theorem C4_count_invariants (symbols : List String)
    (results : List (String × ExtractResult)) (t0 t1 : Rat)
    (m : PipelineMetrics) :
    (run_extraction symbols results t0 t1 m).1.processed_symbols
      = (run_extraction symbols results t0 t1 m).1.successful_symbols
        + (run_extraction symbols results t0 t1 m).1.failed_symbols
    ∧ (run_extraction symbols results t0 t1 m).1.total_symbols
      = symbols.length := by
  unfold run_extraction
  dsimp only
  exact ⟨applyResults_counts results _ rfl, applyResults_total results _⟩

/-- C6: the metrics' running average is updated by
`new_avg = (old_avg * (n - 1) + duration) / n` where `n` is
`total_jobs_run` after this job is counted and `duration` is
`completed_at - started_at` in seconds. -/
theorem C6_avg_duration_update (symbols : List String)
    (results : List (String × ExtractResult)) (t0 t1 : Rat)
    (m : PipelineMetrics) :
    (run_extraction symbols results t0 t1 m).2.total_jobs_run
      = m.total_jobs_run + 1
    ∧ (run_extraction symbols results t0 t1 m).2.avg_job_duration_seconds
      = (m.avg_job_duration_seconds * (((m.total_jobs_run + 1 : Nat) : Rat) - 1)
          + (t1 - t0))
        / ((m.total_jobs_run + 1 : Nat) : Rat) := by
  unfold run_extraction updateMetricsOnComplete
  dsimp only
  rw [applyResults_started_at]
  constructor
  · split <;> rfl
  · split <;> rfl

/-- C10: running an extraction over an empty identifier list with an empty
adapter result map completes the job as SUCCESS with all counters zero. -/
theorem C10_empty_identifier_list :
    (run_extraction [] [] 0 1 initMetrics).1.status = JobStatus.success
    ∧ (run_extraction [] [] 0 1 initMetrics).1.processed_symbols = 0
    ∧ (run_extraction [] [] 0 1 initMetrics).1.successful_symbols = 0
    ∧ (run_extraction [] [] 0 1 initMetrics).1.failed_symbols = 0
    ∧ (run_extraction [] [] 0 1 initMetrics).1.total_symbols = 0 := by
  exact ⟨rfl, rfl, rfl, rfl, rfl⟩

/-! ## Cache layer (cache_service.py) -/

/-- One entry of the in-process fallback map of `CacheService`: the stored
value and the absolute expiry instant (the
`{"value": ..., "expires_at": now + ttl}` record written by `set`). -/
structure CacheEntry where
  value : String
  expires_at : Rat
deriving DecidableEq, Repr

/-- Degraded-mode (`_redis_available = False`) state of `CacheService`: the
in-process fallback map plus the statistics counters. -/
structure CacheService where
  fallback_cache : List (String × CacheEntry) := []
  hits : Nat := 0
  misses : Nat := 0
  sets : Nat := 0
  errors : Nat := 0
deriving DecidableEq, Repr

/-- Python dict assignment `d[key] = v` on an association list: drop any
existing binding of the key and bind it to the new value. -/
def dictSet (l : List (String × α)) (key : String) (v : α) :
    List (String × α) :=
  l.filter (fun p => p.1 != key) ++ [(key, v)]

/-- Degraded-mode branch of `CacheService.get` (cache_service.py lines
97-108): miss on an absent key; an entry past its expiry is deleted from
the map and reported as a miss; otherwise a hit returning the value. -/
def CacheService.get (st : CacheService) (now : Rat) (key : String) :
    Option String × CacheService :=
  match st.fallback_cache.lookup key with
  | none => (none, { st with misses := st.misses + 1 })
  | some entry =>
      if entry.expires_at < now then
        (none, { st with
            fallback_cache := st.fallback_cache.filter (fun p => p.1 != key)
            misses := st.misses + 1 })
      else
        (some entry.value, { st with hits := st.hits + 1 })

/-- Degraded-mode branch of `CacheService.set` (cache_service.py lines
114-130): store `{value, expires_at := now + ttl}` under the key. -/
def CacheService.set (st : CacheService) (now : Rat) (key : String)
    (value : String) (ttl : Rat) : CacheService :=
  { st with
      fallback_cache := dictSet st.fallback_cache key ⟨value, now + ttl⟩
      sets := st.sets + 1 }

theorem lookup_filter_ne_self (l : List (String × α)) (key : String) :
    (l.filter (fun p => p.1 != key)).lookup key = none := by
  induction l with
  | nil => rfl
  | cons p t ih =>
      obtain ⟨k, v⟩ := p
      by_cases hp : k = key
      · simpa [List.filter_cons, hp] using ih
      · have hk : (key == k) = false := beq_eq_false_iff_ne.mpr (Ne.symm hp)
        simpa [List.filter_cons, hp, List.lookup_cons, hk] using ih

theorem lookup_dictSet (l : List (String × α)) (key : String) (v : α) :
    (dictSet l key v).lookup key = some v := by
  unfold dictSet
  induction l with
  | nil => simp [List.lookup]
  | cons p t ih =>
      obtain ⟨k, w⟩ := p
      by_cases hp : k = key
      · simpa [List.filter_cons, hp] using ih
      · have hk : (key == k) = false := beq_eq_false_iff_ne.mpr (Ne.symm hp)
        simpa [List.filter_cons, hp, List.lookup_cons, hk] using ih

/-- C5: in degraded mode, after `set(key, value, ttl)` at time `t_set`, a
`get(key)` performed more than `ttl` seconds later returns a miss (`none`)
and evicts the entry from the in-process map at that read. -/
theorem C5_degraded_ttl_expiry (st : CacheService) (t_set t_get ttl : Rat)
    (key value : String) (httl : 0 < ttl) (hlate : ttl < t_get - t_set) :
    ((st.set t_set key value ttl).get t_get key).1 = none
    ∧ (((st.set t_set key value ttl).get t_get key).2.fallback_cache.lookup
        key = none) := by
  have hlk : (CacheService.set st t_set key value ttl).fallback_cache.lookup
      key = some ⟨value, t_set + ttl⟩ := lookup_dictSet _ _ _
  unfold CacheService.get
  rw [hlk]
  dsimp only
  rw [if_pos (by linarith)]
  exact ⟨rfl, lookup_filter_ne_self _ _⟩

/-- Witness for C5: a concrete entry set at time 0 with ttl 1 read at
time 2. -/
theorem C5_degraded_ttl_expiry_witness :
    ((CacheService.set {} 0 "price:TCS" "quote" 1).get 2 "price:TCS").1 = none
    ∧ (((CacheService.set {} 0 "price:TCS" "quote" 1).get 2
        "price:TCS").2.fallback_cache.lookup "price:TCS" = none) :=
  C5_degraded_ttl_expiry {} 0 2 1 "price:TCS" "quote" (by norm_num)
    (by norm_num)

/-! ## Ranked sets: top gainers / losers (cache_service.py) -/

/-- Upsert of one member/score pair into a sorted-set association list
(redis ZADD for a single member: last write wins). -/
def zaddOne (zs : List (String × Rat)) (e : String × Rat) :
    List (String × Rat) :=
  zs.filter (fun p => p.1 != e.1) ++ [e]

/-- Redis `ZADD key mapping`: upsert every member of the mapping in order. -/
def zadd (zs : List (String × Rat)) (mapping : List (String × Rat)) :
    List (String × Rat) :=
  mapping.foldl zaddOne zs

/-- Redis `ZSCORE`: the stored score of one member. -/
def zscore (zs : List (String × Rat)) (member : String) : Option Rat :=
  zs.lookup member

/-- Descending sorted-set order used by `ZREVRANGE`: higher score first,
ties broken by member name in reverse lexicographic order. -/
def zrevLE (a b : String × Rat) : Prop :=
  b.2 < a.2 ∨ (a.2 = b.2 ∧ b.1 ≤ a.1)

instance : DecidableRel zrevLE := fun a b => by
  unfold zrevLE
  infer_instance

instance : IsTotal (String × Rat) zrevLE := by
  refine ⟨fun a b => ?_⟩
  unfold zrevLE
  rcases lt_trichotomy a.2 b.2 with h | h | h
  · exact Or.inr (Or.inl h)
  · rcases le_total a.1 b.1 with hs | hs
    · exact Or.inr (Or.inr ⟨h.symm, hs⟩)
    · exact Or.inl (Or.inr ⟨h, hs⟩)
  · exact Or.inl (Or.inl h)

instance : IsTrans (String × Rat) zrevLE := by
  refine ⟨fun a b c hab hbc => ?_⟩
  unfold zrevLE at hab hbc ⊢
  rcases hab with h1 | ⟨e1, l1⟩ <;> rcases hbc with h2 | ⟨e2, l2⟩
  · exact Or.inl (h2.trans h1)
  · exact Or.inl (e2 ▸ h1)
  · exact Or.inl (e1 ▸ h2)
  · exact Or.inr ⟨e1.trans e2, l2.trans l1⟩

/-- `ZREVRANGE key 0 (count - 1) WITHSCORES`: the `count` highest-scored
entries, in descending score order. -/
def zrevrange (zs : List (String × Rat)) (count : Nat) :
    List (String × Rat) :=
  (List.insertionSort zrevLE zs).take count

/-- The two ranked collections kept by the cache layer. -/
structure TopMovers where
  top_gainers : List (String × Rat) := []
  top_losers : List (String × Rat) := []
deriving DecidableEq, Repr

/-- `update_top_movers` (cache_service.py lines 308-329): gainers are
stored with their signed percent change, losers with the absolute
magnitude `abs(v)` of theirs. -/
def update_top_movers (st : TopMovers)
    (gainers losers : List (String × Rat)) : TopMovers :=
  let st :=
    if gainers.isEmpty then st
    else { st with top_gainers := zadd st.top_gainers gainers }
  if losers.isEmpty then st
  else { st with
    top_losers := zadd st.top_losers (losers.map (fun p => (p.1, |p.2|))) }

/-- `get_top_gainers` (cache_service.py lines 331-339): `ZREVRANGE` on the
gainers set, scores reported as stored. -/
def get_top_gainers (st : TopMovers) (count : Nat) : List (String × Rat) :=
  zrevrange st.top_gainers count

/-- `get_top_losers` (cache_service.py lines 341-349): `ZREVRANGE` on the
losers set with the stored score re-negated on read. -/
def get_top_losers (st : TopMovers) (count : Nat) : List (String × Rat) :=
  (zrevrange st.top_losers count).map (fun p => (p.1, -p.2))

theorem filter_key_zaddOne (zs : List (String × Rat)) (e : String × Rat)
    (sym : String) (h : e.1 ≠ sym) :
    (zaddOne zs e).filter (fun p => p.1 == sym)
      = zs.filter (fun p => p.1 == sym) := by
  unfold zaddOne
  rw [List.filter_append, List.filter_filter]
  have h2 : [e].filter (fun p => p.1 == sym) = [] := by
    simp [List.filter_cons, h]
  rw [h2, List.append_nil]
  refine List.filter_congr (fun a _ => ?_)
  by_cases ha : a.1 = sym
  · simp [ha, bne_iff_ne, Ne.symm h]
  · simp [ha]

theorem filter_key_zadd_not_mem (mapping : List (String × Rat))
    (zs : List (String × Rat)) (sym : String)
    (h : sym ∉ mapping.map Prod.fst) :
    (zadd zs mapping).filter (fun p => p.1 == sym)
      = zs.filter (fun p => p.1 == sym) := by
  induction mapping generalizing zs with
  | nil => rfl
  | cons e rest ih =>
      simp only [List.map_cons, List.mem_cons, not_or] at h
      unfold zadd at ih ⊢
      rw [List.foldl_cons, ih _ h.2,
        filter_key_zaddOne _ _ _ (fun he => h.1 he.symm)]

theorem filter_key_zaddOne_self (zs : List (String × Rat)) (sym : String)
    (v : Rat) :
    (zaddOne zs (sym, v)).filter (fun p => p.1 == sym) = [(sym, v)] := by
  unfold zaddOne
  rw [List.filter_append, List.filter_filter]
  have h1 : List.filter (fun a : String × Rat =>
      (a.1 == sym) && (a.1 != sym)) zs = [] := by
    induction zs with
    | nil => rfl
    | cons p t ih =>
        by_cases hp : p.1 = sym <;> simp [List.filter_cons, hp, ih]
  rw [h1]
  simp

theorem filter_key_zadd (mapping : List (String × Rat))
    (zs : List (String × Rat)) (sym : String) (v : Rat)
    (hnd : (mapping.map Prod.fst).Nodup)
    (hlk : mapping.lookup sym = some v) :
    (zadd zs mapping).filter (fun p => p.1 == sym) = [(sym, v)] := by
  induction mapping generalizing zs with
  | nil => simp [List.lookup] at hlk
  | cons e rest ih =>
      obtain ⟨k, w⟩ := e
      simp only [List.map_cons, List.nodup_cons] at hnd
      by_cases hk : sym = k
      · subst hk
        have hv : w = v := by simpa [List.lookup_cons] using hlk
        subst hv
        unfold zadd
        rw [List.foldl_cons]
        have hstep := filter_key_zadd_not_mem rest (zaddOne zs (sym, w)) sym
          hnd.1
        unfold zadd at hstep
        rw [hstep, filter_key_zaddOne_self]
      · have hk2 : (sym == k) = false := beq_eq_false_iff_ne.mpr hk
        have hlk2 : rest.lookup sym = some v := by
          simpa [List.lookup_cons, hk2] using hlk
        unfold zadd at ih ⊢
        rw [List.foldl_cons]
        exact ih _ hnd.2 hlk2

theorem lookup_of_filter_key (l : List (String × Rat)) (sym : String)
    (v : Rat) (h : l.filter (fun p => p.1 == sym) = [(sym, v)]) :
    l.lookup sym = some v := by
  induction l with
  | nil => simp at h
  | cons p t ih =>
      obtain ⟨k, w⟩ := p
      by_cases hk : k = sym
      · subst hk
        simp only [List.filter_cons, beq_self_eq_true, if_true,
          List.cons.injEq, Prod.mk.injEq] at h
        simp [List.lookup_cons, h.1.2]
      · have hk2 : (k == sym) = false := beq_eq_false_iff_ne.mpr hk
        have hk3 : (sym == k) = false := beq_eq_false_iff_ne.mpr (Ne.symm hk)
        simp only [List.filter_cons, hk2, if_false] at h
        simpa [List.lookup_cons, hk3] using ih h

theorem eq_of_mem_of_filter_key (l : List (String × Rat)) (sym : String)
    (c v : Rat) (hmem : (sym, c) ∈ l)
    (h : l.filter (fun p => p.1 == sym) = [(sym, v)]) : c = v := by
  have hmf : (sym, c) ∈ l.filter (fun p => p.1 == sym) :=
    List.mem_filter.mpr ⟨hmem, by simp⟩
  rw [h] at hmf
  simpa using hmf

theorem lookup_map_snd (l : List (String × Rat)) (f : Rat → Rat)
    (sym : String) :
    (l.map (fun p => (p.1, f p.2))).lookup sym = (l.lookup sym).map f := by
  induction l with
  | nil => rfl
  | cons p t ih =>
      obtain ⟨k, w⟩ := p
      by_cases hk : sym = k
      · simp [List.lookup_cons, hk]
      · have hk2 : (sym == k) = false := beq_eq_false_iff_ne.mpr hk
        simp [List.lookup_cons, hk2, ih]

theorem map_fst_map_snd (l : List (String × Rat)) (f : Rat → Rat) :
    (l.map (fun p => (p.1, f p.2))).map Prod.fst = l.map Prod.fst := by
  induction l with
  | nil => rfl
  | cons p t ih => simp [ih]

theorem update_top_movers_losers (st : TopMovers)
    (gainers losers : List (String × Rat)) (h : ¬ losers.isEmpty) :
    (update_top_movers st gainers losers).top_losers
      = zadd st.top_losers (losers.map (fun p => (p.1, |p.2|))) := by
  by_cases hg : gainers.isEmpty <;> simp [update_top_movers, hg, h]

theorem update_top_movers_gainers (st : TopMovers)
    (gainers losers : List (String × Rat)) :
    (update_top_movers st gainers losers).top_gainers
      = if gainers.isEmpty then st.top_gainers
        else zadd st.top_gainers gainers := by
  by_cases hg : gainers.isEmpty <;> by_cases hl : losers.isEmpty <;>
    simp [update_top_movers, hg, hl]

/-- C7: a loser entry `(sym, pct)` with `pct < 0` is stored in the losers
ranked set with score `abs(pct)`; a `get_top_losers` entry for that symbol
re-negates the stored score on read, returning the original `pct`; and
`get_top_gainers` returns entries in descending score order. -/
theorem C7_top_movers_round_trip (st : TopMovers)
    (gainers losers : List (String × Rat)) (sym : String) (pct : Rat)
    (count : Nat) (hlk : losers.lookup sym = some pct) (hneg : pct < 0)
    (hnd : (losers.map Prod.fst).Nodup) :
    zscore (update_top_movers st gainers losers).top_losers sym = some |pct|
    ∧ (∀ c : Rat,
        (sym, c) ∈ get_top_losers (update_top_movers st gainers losers) count
          → c = pct)
    ∧ List.Pairwise (fun a b : String × Rat => b.2 ≤ a.2)
        (get_top_gainers (update_top_movers st gainers losers) count) := by
  have hne : ¬ losers.isEmpty := by
    cases losers with
    | nil => simp [List.lookup] at hlk
    | cons a t => simp
  have hmlk : (losers.map (fun p => (p.1, |p.2|))).lookup sym
      = some |pct| := by
    rw [lookup_map_snd, hlk]
    rfl
  have hnd2 : ((losers.map (fun p => (p.1, |p.2|))).map Prod.fst).Nodup := by
    rw [map_fst_map_snd]
    exact hnd
  have hfl : (zadd st.top_losers
        (losers.map (fun p => (p.1, |p.2|)))).filter (fun p => p.1 == sym)
      = [(sym, |pct|)] :=
    filter_key_zadd _ st.top_losers sym _ hnd2 hmlk
  have hloss := update_top_movers_losers st gainers losers hne
  refine ⟨?_, ?_, ?_⟩
  · rw [zscore, hloss]
    exact lookup_of_filter_key _ _ _ hfl
  · intro c hc
    unfold get_top_losers at hc
    rw [List.mem_map] at hc
    obtain ⟨p, hp, hpe⟩ := hc
    have h1 : p.1 = sym := congrArg Prod.fst hpe
    have h2 : -p.2 = c := congrArg Prod.snd hpe
    rw [hloss] at hp
    unfold zrevrange at hp
    have hmem2 : p ∈ zadd st.top_losers
        (losers.map (fun p => (p.1, |p.2|))) :=
      ((List.perm_insertionSort zrevLE _).mem_iff).mp
        (List.mem_of_mem_take hp)
    have hmem3 : (sym, p.2) ∈ zadd st.top_losers
        (losers.map (fun p => (p.1, |p.2|))) := by
      rw [← h1]
      exact hmem2
    have hc2 : p.2 = |pct| := eq_of_mem_of_filter_key _ _ _ _ hmem3 hfl
    rw [← h2, hc2, abs_of_neg hneg, neg_neg]
  · unfold get_top_gainers zrevrange
    have hs := List.sorted_insertionSort zrevLE
      ((update_top_movers st gainers losers).top_gainers)
    have hpw := List.Pairwise.sublist
      (List.take_sublist count (List.insertionSort zrevLE
        ((update_top_movers st gainers losers).top_gainers))) hs
    refine hpw.imp (fun hab => ?_)
    rcases hab with h | ⟨e, _⟩
    · exact le_of_lt h
    · exact le_of_eq e.symm

/-- Witness for C7: a concrete loser at minus five percent and a gainer at
plus three. -/
theorem C7_top_movers_round_trip_witness :
    zscore (update_top_movers ⟨[], []⟩ [("G", 3)]
        [("X", -5)]).top_losers "X" = some |(-5 : Rat)|
    ∧ (∀ c : Rat,
        ("X", c) ∈ get_top_losers (update_top_movers ⟨[], []⟩ [("G", 3)]
          [("X", -5)]) 10 → c = -5)
    ∧ List.Pairwise (fun a b : String × Rat => b.2 ≤ a.2)
        (get_top_gainers (update_top_movers ⟨[], []⟩ [("G", 3)]
          [("X", -5)]) 10) :=
  C7_top_movers_round_trip ⟨[], []⟩ [("G", 3)] [("X", -5)] "X" (-5) 10
    (by decide) (by norm_num) (by decide)

/-! ## Screener query engine (timeseries_store.py `get_screener_data`) -/

/-- The concrete columns reachable through the screener's `COLUMN_MAP`
(timeseries_store.py lines 484-505). -/
inductive Col
  | close
  | volume
  | prev_close
  | rsi_14
  | sma_50
  | sma_200
  | macd
  | macd_signal
  | sma_20
  | ema_12
  | ema_26
  | atr_14
  | adx_14
  | bollinger_upper
  | bollinger_lower
  | roe
  | debt_to_equity
  | eps
  | revenue
  | net_profit
  | operating_margin
  | net_profit_margin
  | current_ratio
  | interest_coverage
  | free_cash_flow
  | operating_cash_flow
  | promoter_holding
  | fii_holding
  | dii_holding
  | public_holding
  | promoter_pledging
deriving DecidableEq, Repr

/-- The four time-series tables joined by the screener. -/
inductive TableKind
  | prices
  | technicals
  | fundamentals
  | shareholding
deriving DecidableEq, Repr

/-- Which table alias (`p`, `t`, `f`, `s`) each column belongs to in
`COLUMN_MAP`. -/
def colTable : Col → TableKind
  | Col.close => TableKind.prices
  | Col.volume => TableKind.prices
  | Col.prev_close => TableKind.prices
  | Col.rsi_14 => TableKind.technicals
  | Col.sma_50 => TableKind.technicals
  | Col.sma_200 => TableKind.technicals
  | Col.macd => TableKind.technicals
  | Col.macd_signal => TableKind.technicals
  | Col.sma_20 => TableKind.technicals
  | Col.ema_12 => TableKind.technicals
  | Col.ema_26 => TableKind.technicals
  | Col.atr_14 => TableKind.technicals
  | Col.adx_14 => TableKind.technicals
  | Col.bollinger_upper => TableKind.technicals
  | Col.bollinger_lower => TableKind.technicals
  | Col.roe => TableKind.fundamentals
  | Col.debt_to_equity => TableKind.fundamentals
  | Col.eps => TableKind.fundamentals
  | Col.revenue => TableKind.fundamentals
  | Col.net_profit => TableKind.fundamentals
  | Col.operating_margin => TableKind.fundamentals
  | Col.net_profit_margin => TableKind.fundamentals
  | Col.current_ratio => TableKind.fundamentals
  | Col.interest_coverage => TableKind.fundamentals
  | Col.free_cash_flow => TableKind.fundamentals
  | Col.operating_cash_flow => TableKind.fundamentals
  | Col.promoter_holding => TableKind.shareholding
  | Col.fii_holding => TableKind.shareholding
  | Col.dii_holding => TableKind.shareholding
  | Col.public_holding => TableKind.shareholding
  | Col.promoter_pledging => TableKind.shareholding

/-- The fixed metric-name-to-column allow-list `COLUMN_MAP`
(timeseries_store.py lines 484-505). -/
def COLUMN_MAP : List (String × Col) :=
  [("close", Col.close), ("current_price", Col.close),
   ("volume", Col.volume), ("prev_close", Col.prev_close),
   ("rsi_14", Col.rsi_14), ("sma_50", Col.sma_50), ("sma_200", Col.sma_200),
   ("macd", Col.macd), ("macd_signal", Col.macd_signal),
   ("sma_20", Col.sma_20), ("ema_12", Col.ema_12), ("ema_26", Col.ema_26),
   ("atr_14", Col.atr_14), ("adx_14", Col.adx_14),
   ("bollinger_upper", Col.bollinger_upper),
   ("bollinger_lower", Col.bollinger_lower),
   ("roe", Col.roe), ("debt_to_equity", Col.debt_to_equity),
   ("eps", Col.eps), ("revenue", Col.revenue),
   ("net_profit", Col.net_profit),
   ("operating_margin", Col.operating_margin),
   ("net_profit_margin", Col.net_profit_margin),
   ("current_ratio", Col.current_ratio),
   ("interest_coverage", Col.interest_coverage),
   ("free_cash_flow", Col.free_cash_flow),
   ("operating_cash_flow", Col.operating_cash_flow),
   ("promoter_holding", Col.promoter_holding),
   ("fii_holding", Col.fii_holding), ("dii_holding", Col.dii_holding),
   ("public_holding", Col.public_holding),
   ("promoter_pledging", Col.promoter_pledging)]

/-- One stored row of one of the four tables: its symbol, its ordering key
(the table's own date / period-end / quarter-end column, as a day index),
its period type (meaningful for fundamentals only) and its column values,
nullable as in SQL. -/
structure TableRow where
  symbol : String
  dateIdx : Int
  period_type : String := "quarterly"
  vals : Col → Option Rat

/-- The four relational tables the screener reads. -/
structure Database where
  prices_daily : List TableRow := []
  technical_indicators : List TableRow := []
  fundamentals_quarterly : List TableRow := []
  shareholding_quarterly : List TableRow := []

/-- `SELECT DISTINCT ON (symbol) ... ORDER BY symbol, date DESC` restricted
to one symbol: the stored row with the greatest date for that symbol, if
any. -/
def latestFor (rows : List TableRow) (sym : String) : Option TableRow :=
  (rows.filter (fun r => r.symbol == sym)).foldl
    (fun best r =>
      match best with
      | none => some r
      | some b => if b.dateIdx < r.dateIdx then some r else some b)
    none

/-- The distinct symbols of the `latest_prices` CTE, which drives the left
join. -/
def pricesSymbols (db : Database) : List String :=
  (db.prices_daily.map (fun r => r.symbol)).dedup

/-- One output row of the screener's joined `SELECT`: the price symbol and
every reachable column, null when the left-joined table has no row for the
symbol. -/
structure ScreenerRow where
  symbol : String
  vals : Col → Option Rat

/-- The `LEFT JOIN` of the four latest-row CTEs for one price symbol. -/
def joinRow (db : Database) (sym : String) (p : TableRow) : ScreenerRow :=
  { symbol := sym
    vals := fun c =>
      match colTable c with
      | TableKind.prices => p.vals c
      | TableKind.technicals =>
          (latestFor db.technical_indicators sym).bind (fun r => r.vals c)
      | TableKind.fundamentals =>
          (latestFor (db.fundamentals_quarterly.filter
              (fun r => r.period_type == "quarterly")) sym).bind
            (fun r => r.vals c)
      | TableKind.shareholding =>
          (latestFor db.shareholding_quarterly sym).bind
            (fun r => r.vals c) }

/-- All joined rows, one per distinct price symbol. -/
def joinedRows (db : Database) : List ScreenerRow :=
  (pricesSymbols db).filterMap (fun sym =>
    (latestFor db.prices_daily sym).map (fun p => joinRow db sym p))

/-- One screener filter as the caller passes it: metric name, operator
string (default `"gte"` via `f.get("operator", "gte")`), value (default 0)
and optional second value for `between`. -/
structure ScreenerFilter where
  metric : String := ""
  operator : String := "gte"
  value : Rat := 0
  value2 : Option Rat := none
deriving DecidableEq, Repr

/-- One SQL comparison condition built by the filter loop. -/
inductive CondOp
  | gt (v : Rat)
  | lt (v : Rat)
  | gte (v : Rat)
  | lte (v : Rat)
  | eq (v : Rat)
  | between (lo hi : Rat)
deriving DecidableEq, Repr

/-- The conditions one filter contributes (timeseries_store.py lines
513-547): none when the metric is not in `COLUMN_MAP` (`continue`), none
for an unknown operator, none for `between` without `value2`; otherwise
exactly one comparison on the resolved column. -/
def condsOf (f : ScreenerFilter) : List (Col × CondOp) :=
  match COLUMN_MAP.lookup f.metric with
  | none => []
  | some col =>
      if f.operator = "gt" then [(col, CondOp.gt f.value)]
      else if f.operator = "lt" then [(col, CondOp.lt f.value)]
      else if f.operator = "gte" then [(col, CondOp.gte f.value)]
      else if f.operator = "lte" then [(col, CondOp.lte f.value)]
      else if f.operator = "eq" then [(col, CondOp.eq f.value)]
      else if f.operator = "between" then
        match f.value2 with
        | some v2 => [(col, CondOp.between f.value v2)]
        | none => []
      else []

/-- The whole filter loop: conditions contributed in filter order. -/
def buildConds (filters : List ScreenerFilter) : List (Col × CondOp) :=
  filters.flatMap condsOf

/-- SQL evaluation of one condition on one joined row, with SQL
three-valued logic: a comparison against NULL keeps the row out.
`BETWEEN` is the inclusive range. -/
def evalCond (row : ScreenerRow) (c : Col × CondOp) : Bool :=
  match row.vals c.1 with
  | none => false
  | some x =>
      match c.2 with
      | CondOp.gt v => decide (v < x)
      | CondOp.lt v => decide (x < v)
      | CondOp.gte v => decide (v ≤ x)
      | CondOp.lte v => decide (x ≤ v)
      | CondOp.eq v => decide (x = v)
      | CondOp.between lo hi => decide (lo ≤ x ∧ x ≤ hi)

/-- ASCII lowering of one character (Python `str.lower` restricted to the
sort-order strings in play). -/
def lowerChar (c : Char) : Char :=
  if c = 'A' then 'a' else if c = 'S' then 's' else if c = 'C' then 'c'
  else if c = 'D' then 'd' else if c = 'E' then 'e' else c

/-- Python `sort_order.lower()` for the ASC/DESC strings. -/
def strLower (s : String) : String :=
  String.mk (s.data.map lowerChar)

/-- `ORDER BY col dir NULLS LAST` as a Boolean comparison on the sort
column's value: nulls sort last in either direction. -/
def sortKeyLEb (key : ScreenerRow → Option Rat) (desc : Bool)
    (a b : ScreenerRow) : Bool :=
  match key a, key b with
  | some x, some y => if desc then decide (y ≤ x) else decide (x ≤ y)
  | some _, none => true
  | none, some _ => false
  | none, none => true

/-- `ORDER BY p.symbol dir` (the fallback sort column when `sort_by` does
not resolve). -/
def symbolLEb (desc : Bool) (a b : ScreenerRow) : Bool :=
  if desc then decide (b.symbol ≤ a.symbol) else decide (a.symbol ≤ b.symbol)

/-- The screener's `ORDER BY`: the resolved sort column with NULLS LAST,
else the price symbol. -/
def sortRows (rows : List ScreenerRow) (sort_by sort_order : String) :
    List ScreenerRow :=
  let desc := strLower sort_order == "desc"
  match COLUMN_MAP.lookup sort_by with
  | some c =>
      List.insertionSort
        (fun a b => sortKeyLEb (fun r => r.vals c) desc a b = true) rows
  | none => List.insertionSort (fun a b => symbolLEb desc a b = true) rows

/-- `get_screener_data` (timeseries_store.py lines 454-608): build the
left join of the four latest-row views, restrict to the requested symbols
when a non-empty list is given, apply the conjunction of the built filter
conditions, sort and limit. -/
def get_screener_data (db : Database) (filters : List ScreenerFilter)
    (symbols : Option (List String)) (sort_by sort_order : String)
    (limit : Nat) : List ScreenerRow :=
  let conds := buildConds filters
  let rows := joinedRows db
  let rows :=
    match symbols with
    | some syms =>
        if syms.isEmpty then rows
        else rows.filter (fun r => syms.contains r.symbol)
    | none => rows
  let rows := rows.filter (fun r => conds.all (evalCond r))
  (sortRows rows sort_by sort_order).take limit

/-- C3: a filter whose metric is not in the allow-list contributes no
condition: `get_screener_data` does not raise (it is total here) and its
result with the unknown-metric filter anywhere in the list is identical to
the result with that filter removed. -/
theorem C3_unknown_metric_noop (db : Database)
    (l1 l2 : List ScreenerFilter) (f : ScreenerFilter)
    (symbols : Option (List String)) (sort_by sort_order : String)
    (limit : Nat) (h : COLUMN_MAP.lookup f.metric = none) :
    get_screener_data db (l1 ++ f :: l2) symbols sort_by sort_order limit
      = get_screener_data db (l1 ++ l2) symbols sort_by sort_order limit := by
  have hc : condsOf f = [] := by
    unfold condsOf
    rw [h]
  have hb : buildConds (l1 ++ f :: l2) = buildConds (l1 ++ l2) := by
    simp [buildConds, hc]
  unfold get_screener_data
  rw [hb]

/-- A one-row database used to witness the unknown-metric no-op. -/
def witnessDb : Database :=
  { prices_daily := [{ symbol := "TCS"
                       dateIdx := 1
                       vals := fun c =>
                         match c with
                         | Col.close => some 100
                         | _ => none }] }

/-- Witness for C3: the spec's `not_a_real_metric` filter on a one-row
database. -/
theorem C3_unknown_metric_noop_witness :
    get_screener_data witnessDb
        [{ metric := "not_a_real_metric", operator := "gt", value := 5 }]
        none "symbol" "asc" 200
      = get_screener_data witnessDb [] none "symbol" "asc" 200 :=
  C3_unknown_metric_noop witnessDb [] []
    { metric := "not_a_real_metric", operator := "gt", value := 5 }
    none "symbol" "asc" 200 (by decide)

theorem mem_sortRows (rows : List ScreenerRow) (sort_by sort_order : String)
    (r : ScreenerRow) (h : r ∈ sortRows rows sort_by sort_order) :
    r ∈ rows := by
  unfold sortRows at h
  dsimp only at h
  split at h
  · exact ((List.perm_insertionSort _ rows).mem_iff).mp h
  · exact ((List.perm_insertionSort _ rows).mem_iff).mp h

/-- A price row of the spec's range-filter scenario. -/
def scnPrice (sym : String) : TableRow :=
  { symbol := sym
    dateIdx := 1
    vals := fun c =>
      match c with
      | Col.close => some 100
      | _ => none }

/-- A technicals row of the spec's range-filter scenario, carrying one
`rsi_14` value. -/
def scnTech (sym : String) (rsi : Rat) : TableRow :=
  { symbol := sym
    dateIdx := 1
    vals := fun c =>
      match c with
      | Col.rsi_14 => some rsi
      | _ => none }

/-- The spec's scenario filter
`{metric: rsi_14, operator: between, value: 40, value2: 70}`. -/
def scnFilter : ScreenerFilter :=
  { metric := "rsi_14"
    operator := "between"
    value := 40
    value2 := some 70 }

/-- The spec's scenario database: three symbols with rsi values 35, 55
and 80. -/
def scenarioDb : Database :=
  { prices_daily := [scnPrice "A", scnPrice "B", scnPrice "C"]
    technical_indicators := [scnTech "A" 35, scnTech "B" 55, scnTech "C" 80] }

/-- C8: a `between` filter on an allow-listed metric with both values
present contributes exactly the inclusive range condition
`value <= column <= value2`; every row `get_screener_data` returns under
that single filter carries a column value inside the inclusive range; and
on the spec's scenario (rsi values 35, 55, 80 filtered between 40 and 70)
only the row with 55 comes back. -/
theorem C8_between_inclusive (f : ScreenerFilter) (c : Col) (v2 : Rat)
    (h1 : f.operator = "between") (h2 : COLUMN_MAP.lookup f.metric = some c)
    (h3 : f.value2 = some v2) :
    condsOf f = [(c, CondOp.between f.value v2)]
    ∧ (∀ row : ScreenerRow,
        evalCond row (c, CondOp.between f.value v2) = true
          ↔ ∃ x, row.vals c = some x ∧ f.value ≤ x ∧ x ≤ v2)
    ∧ (∀ (db : Database) (symbols : Option (List String))
        (sort_by sort_order : String) (limit : Nat) (r : ScreenerRow),
        r ∈ get_screener_data db [f] symbols sort_by sort_order limit →
          ∃ x, r.vals c = some x ∧ f.value ≤ x ∧ x ≤ v2)
    ∧ (get_screener_data scenarioDb [scnFilter] none "symbol" "asc"
        200).map (fun r => r.symbol) = ["B"] := by
  have hconds : condsOf f = [(c, CondOp.between f.value v2)] := by
    unfold condsOf
    rw [h2, h1, h3]
    simp
  have heval : ∀ row : ScreenerRow,
      evalCond row (c, CondOp.between f.value v2) = true
        ↔ ∃ x, row.vals c = some x ∧ f.value ≤ x ∧ x ≤ v2 := by
    intro row
    unfold evalCond
    cases hrv : row.vals c with
    | none => simp
    | some x => simp [hrv, and_assoc]
  refine ⟨hconds, heval, ?_, by decide⟩
  intro db symbols sort_by sort_order limit r hr
  unfold get_screener_data at hr
  dsimp only at hr
  rw [buildConds] at hr
  simp only [List.flatMap_cons, List.flatMap_nil, List.append_nil,
    hconds] at hr
  have hr2 := mem_sortRows _ sort_by sort_order r (List.mem_of_mem_take hr)
  have hr3 := (List.mem_filter.mp hr2).2
  simp only [List.all_cons, List.all_nil, Bool.and_true] at hr3
  exact (heval r).mp hr3

/-- Witness for C8: the spec's concrete filter
`{metric: rsi_14, operator: between, value: 40, value2: 70}`. -/
theorem C8_between_inclusive_witness :
    condsOf scnFilter = [(Col.rsi_14, CondOp.between 40 70)]
    ∧ (∀ row : ScreenerRow,
        evalCond row (Col.rsi_14, CondOp.between 40 70) = true
          ↔ ∃ x, row.vals Col.rsi_14 = some x ∧ 40 ≤ x ∧ x ≤ 70)
    ∧ (∀ (db : Database) (symbols : Option (List String))
        (sort_by sort_order : String) (limit : Nat) (r : ScreenerRow),
        r ∈ get_screener_data db [scnFilter] symbols sort_by sort_order
            limit →
          ∃ x, r.vals Col.rsi_14 = some x ∧ 40 ≤ x ∧ x ≤ 70)
    ∧ (get_screener_data scenarioDb [scnFilter] none "symbol" "asc"
        200).map (fun r => r.symbol) = ["B"] :=
  C8_between_inclusive scnFilter Col.rsi_14 70 rfl (by decide) rfl

/-! ## Rate limiter (screener_extractor.py `_rate_limit`) -/

/-- `REQUEST_DELAY` of `ScreenerExtractor`: minimum seconds between
consecutive upstream requests. -/
def REQUEST_DELAY : Rat := 2

/-- One pass through `_rate_limit` (screener_extractor.py lines 223-230),
with `asyncio.sleep` modelled as exact: given the last-call watermark and
the current clock reading, return the instant at which the call proceeds
and the advanced watermark (`time.time()` re-read after the sleep). -/
def rate_limit (last_request_time current_time : Rat) : Rat × Rat :=
  let elapsed := current_time - last_request_time
  if elapsed < REQUEST_DELAY then
    let t := current_time + (REQUEST_DELAY - elapsed)
    (t, t)
  else
    (current_time, current_time)

/-- C9: each rate-limited call proceeds at least `REQUEST_DELAY` seconds
after the stored watermark, and the watermark advances to the call
instant; hence two consecutive calls (the second entering with the
watermark the first left) are separated by at least `REQUEST_DELAY`
seconds. -/
theorem C9_rate_limit_spacing (w t1 t2 : Rat) :
    (REQUEST_DELAY ≤ (rate_limit w t1).1 - w
      ∧ (rate_limit w t1).2 = (rate_limit w t1).1)
    ∧ REQUEST_DELAY
      ≤ (rate_limit (rate_limit w t1).2 t2).1 - (rate_limit w t1).1 := by
  have key : ∀ u s : Rat, REQUEST_DELAY ≤ (rate_limit u s).1 - u
      ∧ (rate_limit u s).2 = (rate_limit u s).1 := by
    intro u s
    unfold rate_limit
    dsimp only
    split
    · constructor
      · dsimp only
        linarith
      · rfl
    · constructor
      · dsimp only
        linarith [not_lt.mp (by assumption : ¬ s - u < REQUEST_DELAY)]
      · rfl
  refine ⟨key w t1, ?_⟩
  have h2 := (key (rate_limit w t1).2 t2).1
  rw [(key w t1).2] at h2 ⊢
  exact h2
/-! ## Time-series batch upserts (timeseries_store.py)

Each of the four upsert loops runs inside ONE `async with
conn.transaction():` block with a per-record `try/except` inside it.  The
embedding therefore distinguishes three per-record outcomes:

* a failure while the record's Python-side work runs (date `strptime`,
  `float()`/`int()` conversions) or while the driver encodes a parameter —
  the exception is caught, the record is skipped, and the shared
  transaction is untouched;
* a server-side error of the INSERT itself (NULL in the NOT NULL key
  column, numeric field overflow, value too long for a varchar column,
  integer out of range) — the exception is caught and the record skipped,
  but the shared transaction is now aborted, so every later
  `conn.execute` raises immediately and is skipped as well;
* success — the row is applied inside the transaction and the count
  incremented.

At block exit the driver issues COMMIT; committing an aborted transaction
rolls the whole batch back, so none of the applied rows persist, while the
accumulated count is returned regardless.  Column bounds follow the schema
of setup_databases.py. -/

/-- A calendar date as `datetime.strptime(..., "%Y-%m-%d").date()` yields
one. -/
structure Date where
  year : Nat
  month : Nat
  day : Nat
deriving DecidableEq, Repr

/-- A Python value as the upsert loops read one out of a record dict. -/
inductive PyVal
  | none
  | num (q : Rat)
  | str (s : String)
  | date (d : Date)
deriving DecidableEq, Repr

/-- One raw record dictionary handed to an upsert. -/
structure RawRecord where
  fields : List (String × PyVal)
deriving DecidableEq, Repr

/-- Python `record.get(k, default)`. -/
def RawRecord.get (r : RawRecord) (k : String) (d : PyVal) : PyVal :=
  (r.fields.lookup k).getD d

/-- Python `x or 0`: falsy values (`None`, `0`, `""`) become the number
zero. -/
def orZero : PyVal → PyVal
  | PyVal.none => PyVal.num 0
  | PyVal.num q => if q = 0 then PyVal.num 0 else PyVal.num q
  | PyVal.str s => if s = "" then PyVal.num 0 else PyVal.str s
  | PyVal.date d => PyVal.date d

/-- The numeric value of a nonempty all-digit character run. -/
def digitsVal (cs : List Char) : Option Nat :=
  if cs.isEmpty then Option.none
  else if cs.all Char.isDigit then
    some (cs.foldl (fun a c => a * 10 + (c.toNat - 48)) 0)
  else Option.none

/-- Python `float(s)` on a string, modelled for decimal literals with an
optional sign and fraction; anything else raises, i.e. parses to `none`.
Built through `mkRat` on integer digits. -/
def parseDecimal (s : String) : Option Rat :=
  let (neg, cs) :=
    match s.data with
    | '-' :: rest => (true, rest)
    | cs => (false, cs)
  let sign := fun (q : Rat) => if neg then -q else q
  match cs.splitOn '.' with
  | [whole] => (digitsVal whole).map (fun n => sign (mkRat n 1))
  | [whole, frac] =>
      match digitsVal whole, digitsVal frac with
      | some w, some f =>
          some (sign (mkRat (w * 10 ^ frac.length + f) (10 ^ frac.length)))
      | _, _ => Option.none
  | _ => Option.none

/-- Python `int(s)` on a string: an optional sign and digits only. -/
def parseIntStr (s : String) : Option Int :=
  match s.data with
  | '-' :: rest => (digitsVal rest).map (fun n => -(n : Int))
  | cs => (digitsVal cs).map (fun n => (n : Int))

/-- Truncation toward zero, as Python `int(float)` rounds: the quotient of
the reduced numerator by the denominator under Int division. -/
def truncRat (q : Rat) : Int :=
  q.num / (q.den : Int)

/-- `float(record.get(k, 0) or 0)` — Python-side: numbers pass through,
parseable strings convert, anything else raises and the record is skipped
cleanly. -/
def floatParam (v : PyVal) : Option Rat :=
  match orZero v with
  | PyVal.num q => some q
  | PyVal.str s => parseDecimal s
  | _ => Option.none

/-- `int(record.get(k, 0) or 0)` — Python-side. -/
def intParam (v : PyVal) : Option Int :=
  match orZero v with
  | PyVal.num q => some (truncRat q)
  | PyVal.str s => parseIntStr s
  | _ => Option.none

/-- A value bound to a text parameter of the INSERT: a non-string fails
driver-side encoding, cleanly skipping the record. -/
def strParam (v : PyVal) : Option String :=
  match v with
  | PyVal.str s => some s
  | _ => Option.none

/-- A value bound raw (`r.get(k)`) to a nullable numeric column: `None`
and numbers encode, anything else fails driver-side encoding. -/
def optNumParam (v : PyVal) : Option (Option Rat) :=
  match v with
  | PyVal.none => some Option.none
  | PyVal.num q => some (some q)
  | _ => Option.none

/-- Days per month with the Gregorian leap rule, as `strptime`
validates. -/
def daysInMonth (y m : Nat) : Nat :=
  if m = 2 then
    if (y % 4 = 0 ∧ y % 100 ≠ 0) ∨ y % 400 = 0 then 29 else 28
  else if m = 4 ∨ m = 6 ∨ m = 9 ∨ m = 11 then 30
  else 31

/-- `datetime.strptime(s, "%Y-%m-%d")`: three dash-separated digit runs
forming a valid calendar date; anything else raises. -/
def parseDate (s : String) : Option Date :=
  match s.data.splitOn '-' with
  | [ys, ms, ds] =>
      match digitsVal ys, digitsVal ms, digitsVal ds with
      | some y, some m, some d =>
          if 1 ≤ m ∧ m ≤ 12 ∧ 1 ≤ d ∧ d ≤ daysInMonth y m then
            some { year := y, month := m, day := d }
          else Option.none
      | _, _, _ => Option.none
  | _ => Option.none

/-- The date key of a record, as the source's lines 118-120 and the driver
treat it: a string is parsed Python-side by `strptime` (raising on a bad
one — clean skip); `None` encodes as SQL NULL and travels to the server,
which rejects it against the NOT NULL key column only inside the
transaction; a date object binds as itself; a number fails driver-side
encoding (clean skip).  The outer `Option` is the Python/driver outcome,
the inner one is the possibly-NULL bound value. -/
def dateParam : PyVal → Option (Option Date)
  | PyVal.str s => (parseDate s).map some
  | PyVal.date d => some (some d)
  | PyVal.none => some Option.none
  | PyVal.num _ => Option.none

/-- PostgreSQL rounding of `n / d` (with `d > 0`) to the nearest integer,
half away from zero, on the integers directly. -/
def roundHalfAwayScaled (n : Int) (d : Nat) : Int :=
  if 0 ≤ n then (2 * n + d) / (2 * d) else -((2 * (-n) + d) / (2 * d))

/-- Server-side outcome of a `NUMERIC(p, s)` column: the value is rounded
to scale `s` (its scaled integer is `roundHalfAwayScaled (num * 10^s)
den`); it fits the declared precision exactly when that scaled integer has
at most `p` digits, else "numeric field overflow" aborts the
transaction. -/
def numericVal (p s : Nat) (q : Rat) : Option Rat :=
  let r := roundHalfAwayScaled (q.num * ((10 ^ s : Nat) : Int)) q.den
  if r.natAbs < 10 ^ p then some (mkRat r (10 ^ s)) else Option.none

/-- Server-side BIGINT range check. -/
def int8Range (v : Int) : Option Int :=
  if -(((2 ^ 63 : Nat) : Int)) ≤ v ∧ v < ((2 ^ 63 : Nat) : Int) then some v
  else Option.none

/-- Server-side INTEGER range check. -/
def int4Range (v : Int) : Option Int :=
  if -(((2 ^ 31 : Nat) : Int)) ≤ v ∧ v < ((2 ^ 31 : Nat) : Int) then some v
  else Option.none

/-- Server-side `VARCHAR(n)` length check. -/
def varcharVal (n : Nat) (s : String) : Option String :=
  if s.length ≤ n then some s else Option.none

/-- The SQL type of one nullable column, as the schema declares it. -/
inductive SqlType
  | numeric (p s : Nat)
  | int8
  | int4
deriving DecidableEq, Repr

/-- Server-side outcome of one nullable column value: NULL is accepted,
a numeric value is rounded and bounds-checked per its declared type. -/
def serverBindOpt : SqlType → Option Rat → Option (Option Rat)
  | _, Option.none => some Option.none
  | SqlType.numeric p s, some q => (numericVal p s q).map some
  | SqlType.int8, some q =>
      if q.den = 1 ∧ -(((2 ^ 63 : Nat) : Int)) ≤ q.num
          ∧ q.num < ((2 ^ 63 : Nat) : Int) then some (some q)
      else Option.none
  | SqlType.int4, some q =>
      if q.den = 1 ∧ -(((2 ^ 31 : Nat) : Int)) ≤ q.num
          ∧ q.num < ((2 ^ 31 : Nat) : Int) then some (some q)
      else Option.none

/-- The parameters of one `prices_daily` INSERT after the Python-side work
of `upsert_prices` succeeded: the possibly-NULL date and the converted
values. -/
structure PriceParams where
  symbol : String
  date : Option Date
  open_ : Rat
  high : Rat
  low : Rat
  close : Rat
  last : Rat
  prev_close : Rat
  volume : Int
  turnover : Rat
  total_trades : Int
  delivery_qty : Int
  delivery_pct : Rat
  vwap : Rat
  isin : String
  series : String
deriving DecidableEq, Repr

/-- One stored row of `prices_daily`. -/
structure PriceRow where
  symbol : String
  date : Date
  open_ : Rat
  high : Rat
  low : Rat
  close : Rat
  last : Rat
  prev_close : Rat
  volume : Int
  turnover : Rat
  total_trades : Int
  delivery_qty : Int
  delivery_pct : Rat
  vwap : Rat
  isin : String
  series : String
deriving DecidableEq, Repr

/-- The Python-side body of one `upsert_prices` iteration
(timeseries_store.py lines 117-140): date resolution and the argument
conversions; `none` means the record raised before reaching the server
and is skipped without touching the transaction. -/
def parsePriceRecord (record : RawRecord) : Option PriceParams := do
  let d ← dateParam (record.get "date" PyVal.none)
  let symbol ← strParam (record.get "symbol" (PyVal.str ""))
  let o ← floatParam (record.get "open" (PyVal.num 0))
  let h ← floatParam (record.get "high" (PyVal.num 0))
  let l ← floatParam (record.get "low" (PyVal.num 0))
  let c ← floatParam (record.get "close" (PyVal.num 0))
  let la ← floatParam (record.get "last" (PyVal.num 0))
  let pc ← floatParam (record.get "prev_close" (PyVal.num 0))
  let vol ← intParam (record.get "volume" (PyVal.num 0))
  let tov ← floatParam (record.get "turnover" (PyVal.num 0))
  let tt ← intParam (record.get "total_trades" (PyVal.num 0))
  let dq ← intParam
    (record.get "delivery_quantity" (record.get "delivery_qty" (PyVal.num 0)))
  let dp ← floatParam
    (record.get "delivery_percentage"
      (record.get "delivery_pct" (PyVal.num 0)))
  let vw ← floatParam (record.get "vwap" (PyVal.num 0))
  let isin ← strParam (record.get "isin" (PyVal.str ""))
  let series ← strParam (record.get "series" (PyVal.str "EQ"))
  return { symbol := symbol
           date := d
           open_ := o
           high := h
           low := l
           close := c
           last := la
           prev_close := pc
           volume := vol
           turnover := tov
           total_trades := tt
           delivery_qty := dq
           delivery_pct := dp
           vwap := vw
           isin := isin
           series := series }

/-- Server-side outcome of one `prices_daily` INSERT per the schema
(setup_databases.py): NOT NULL key date, `VARCHAR(20)/12/5` lengths,
`NUMERIC(12,2)/(18,2)/(6,2)` bounds, BIGINT/INTEGER ranges; `none` aborts
the shared transaction. -/
def priceServerCheck (p : PriceParams) : Option PriceRow := do
  let d ← p.date
  let symbol ← varcharVal 20 p.symbol
  let o ← numericVal 12 2 p.open_
  let h ← numericVal 12 2 p.high
  let l ← numericVal 12 2 p.low
  let c ← numericVal 12 2 p.close
  let la ← numericVal 12 2 p.last
  let pc ← numericVal 12 2 p.prev_close
  let vol ← int8Range p.volume
  let tov ← numericVal 18 2 p.turnover
  let tt ← int4Range p.total_trades
  let dq ← int8Range p.delivery_qty
  let dp ← numericVal 6 2 p.delivery_pct
  let vw ← numericVal 12 2 p.vwap
  let isin ← varcharVal 12 p.isin
  let series ← varcharVal 5 p.series
  return { symbol := symbol
           date := d
           open_ := o
           high := h
           low := l
           close := c
           last := la
           prev_close := pc
           volume := vol
           turnover := tov
           total_trades := tt
           delivery_qty := dq
           delivery_pct := dp
           vwap := vw
           isin := isin
           series := series }

/-- `ON CONFLICT (symbol, date) DO UPDATE`: at most one row per key, last
write wins on the non-key columns. -/
def upsertPriceRow (store : List PriceRow) (row : PriceRow) :
    List PriceRow :=
  store.filter (fun r =>
    !(decide (r.symbol = row.symbol ∧ r.date = row.date))) ++ [row]

/-- The shared shape of the four batch upsert loops, as the program runs
them: the whole loop inside one `conn.transaction()` with a per-record
`try/except`.  A record whose Python/driver phase fails is skipped
cleanly; once a server-side error has aborted the transaction every later
`execute` raises and is skipped; a server-side failure flips the abort
flag; a success applies the row in-transaction and increments the count.
On exit, the COMMIT of an aborted transaction rolls the whole batch back
to the incoming store, while the count is returned regardless. -/
def batchUpsert (clientPhase : RawRecord → Option π)
    (serverPhase : π → Option ρ) (apply : σ → ρ → σ)
    (store : σ) (records : List RawRecord) : σ × Nat :=
  let result := records.foldl
    (fun (acc : σ × Nat × Bool) record =>
      match clientPhase record with
      | Option.none => acc
      | some params =>
          if acc.2.2 then acc
          else
            match serverPhase params with
            | Option.none => (acc.1, acc.2.1, true)
            | some row => (apply acc.1 row, acc.2.1 + 1, false))
    (store, 0, false)
  if result.2.2 then (store, result.2.1) else (result.1, result.2.1)

/-- `upsert_prices` (timeseries_store.py lines 74-145). -/
def upsert_prices (store : List PriceRow) (records : List RawRecord) :
    List PriceRow × Nat :=
  batchUpsert parsePriceRecord priceServerCheck upsertPriceRow store records

/-- The fixed field list bound by `upsert_technicals`. -/
def techKeys : List String :=
  ["sma_20", "sma_50", "sma_200", "ema_12", "ema_26", "rsi_14", "macd",
   "macd_signal", "bollinger_upper", "bollinger_lower", "atr_14", "adx_14",
   "obv", "support_level", "resistance_level"]

/-- The declared SQL types of `techKeys`, in order (setup_databases.py). -/
def techTypes : List SqlType :=
  [SqlType.numeric 12 2, SqlType.numeric 12 2, SqlType.numeric 12 2,
   SqlType.numeric 12 2, SqlType.numeric 12 2, SqlType.numeric 6 2,
   SqlType.numeric 12 4, SqlType.numeric 12 4, SqlType.numeric 12 2,
   SqlType.numeric 12 2, SqlType.numeric 12 4, SqlType.numeric 6 2,
   SqlType.int8, SqlType.numeric 12 2, SqlType.numeric 12 2]

/-- The bound parameters of one `technical_indicators` INSERT. -/
structure TechParams where
  symbol : String
  date : Option Date
  vals : List (Option Rat)
deriving DecidableEq, Repr

/-- One stored row of `technical_indicators`: key plus the nullable values
in `techKeys` order. -/
structure TechRow where
  symbol : String
  date : Date
  vals : List (Option Rat)
deriving DecidableEq, Repr

/-- The Python-side body of one `upsert_technicals` iteration
(timeseries_store.py lines 242-257). -/
def parseTechRecord (record : RawRecord) : Option TechParams := do
  let d ← dateParam (record.get "date" PyVal.none)
  let symbol ← strParam (record.get "symbol" (PyVal.str ""))
  let vs ← techKeys.mapM (fun k => optNumParam (record.get k PyVal.none))
  return { symbol := symbol, date := d, vals := vs }

/-- Server-side outcome of one `technical_indicators` INSERT. -/
def techServerCheck (p : TechParams) : Option TechRow := do
  let d ← p.date
  let symbol ← varcharVal 20 p.symbol
  let vs ← (techTypes.zip p.vals).mapM
    (fun tv => serverBindOpt tv.1 tv.2)
  return { symbol := symbol, date := d, vals := vs }

/-- `ON CONFLICT (symbol, date) DO UPDATE` for technicals. -/
def upsertTechRow (store : List TechRow) (row : TechRow) : List TechRow :=
  store.filter (fun r =>
    !(decide (r.symbol = row.symbol ∧ r.date = row.date))) ++ [row]

/-- `upsert_technicals` (timeseries_store.py lines 214-262). -/
def upsert_technicals (store : List TechRow) (records : List RawRecord) :
    List TechRow × Nat :=
  batchUpsert parseTechRecord techServerCheck upsertTechRow store records

/-- The fixed field list bound by `upsert_fundamentals`. -/
def fundKeys : List String :=
  ["revenue", "operating_profit", "operating_margin", "net_profit",
   "net_profit_margin", "eps", "ebitda", "total_assets", "total_equity",
   "total_debt", "cash_and_equiv", "operating_cash_flow", "free_cash_flow",
   "roe", "debt_to_equity", "interest_coverage", "current_ratio"]

/-- The declared SQL types of `fundKeys`, in order. -/
def fundTypes : List SqlType :=
  [SqlType.numeric 18 2, SqlType.numeric 18 2, SqlType.numeric 8 4,
   SqlType.numeric 18 2, SqlType.numeric 8 4, SqlType.numeric 10 2,
   SqlType.numeric 18 2, SqlType.numeric 18 2, SqlType.numeric 18 2,
   SqlType.numeric 18 2, SqlType.numeric 18 2, SqlType.numeric 18 2,
   SqlType.numeric 18 2, SqlType.numeric 8 4, SqlType.numeric 8 4,
   SqlType.numeric 8 2, SqlType.numeric 8 4]

/-- The bound parameters of one `fundamentals_quarterly` INSERT. -/
structure FundParams where
  symbol : String
  period_end : Option Date
  period_type : String
  vals : List (Option Rat)
deriving DecidableEq, Repr

/-- One stored row of `fundamentals_quarterly`. -/
structure FundRow where
  symbol : String
  period_end : Date
  period_type : String
  vals : List (Option Rat)
deriving DecidableEq, Repr

/-- The Python-side body of one `upsert_fundamentals` iteration
(timeseries_store.py lines 333-352). -/
def parseFundRecord (record : RawRecord) : Option FundParams := do
  let pe ← dateParam (record.get "period_end" PyVal.none)
  let symbol ← strParam (record.get "symbol" (PyVal.str ""))
  let pt ← strParam (record.get "period_type" (PyVal.str "quarterly"))
  let vs ← fundKeys.mapM (fun k => optNumParam (record.get k PyVal.none))
  return { symbol := symbol, period_end := pe, period_type := pt, vals := vs }

/-- Server-side outcome of one `fundamentals_quarterly` INSERT. -/
def fundServerCheck (p : FundParams) : Option FundRow := do
  let pe ← p.period_end
  let symbol ← varcharVal 20 p.symbol
  let pt ← varcharVal 10 p.period_type
  let vs ← (fundTypes.zip p.vals).mapM
    (fun tv => serverBindOpt tv.1 tv.2)
  return { symbol := symbol, period_end := pe, period_type := pt, vals := vs }

/-- `ON CONFLICT (symbol, period_end, period_type) DO UPDATE`. -/
def upsertFundRow (store : List FundRow) (row : FundRow) : List FundRow :=
  store.filter (fun r =>
    !(decide (r.symbol = row.symbol ∧ r.period_end = row.period_end
        ∧ r.period_type = row.period_type))) ++ [row]

/-- `upsert_fundamentals` (timeseries_store.py lines 301-357). -/
def upsert_fundamentals (store : List FundRow) (records : List RawRecord) :
    List FundRow × Nat :=
  batchUpsert parseFundRecord fundServerCheck upsertFundRow store records

/-- The fixed field list bound by `upsert_shareholding`. -/
def shareKeys : List String :=
  ["promoter_holding", "promoter_pledging", "fii_holding", "dii_holding",
   "public_holding", "promoter_holding_change", "fii_holding_change",
   "num_shareholders", "mf_holding", "insurance_holding"]

/-- The declared SQL types of `shareKeys`, in order. -/
def shareTypes : List SqlType :=
  [SqlType.numeric 6 2, SqlType.numeric 6 2, SqlType.numeric 6 2,
   SqlType.numeric 6 2, SqlType.numeric 6 2, SqlType.numeric 6 2,
   SqlType.numeric 6 2, SqlType.int4, SqlType.numeric 6 2,
   SqlType.numeric 6 2]

/-- The bound parameters of one `shareholding_quarterly` INSERT. -/
structure ShareParams where
  symbol : String
  quarter_end : Option Date
  vals : List (Option Rat)
deriving DecidableEq, Repr

/-- One stored row of `shareholding_quarterly`. -/
structure ShareRow where
  symbol : String
  quarter_end : Date
  vals : List (Option Rat)
deriving DecidableEq, Repr

/-- The Python-side body of one `upsert_shareholding` iteration
(timeseries_store.py lines 411-425). -/
def parseShareRecord (record : RawRecord) : Option ShareParams := do
  let qe ← dateParam (record.get "quarter_end" PyVal.none)
  let symbol ← strParam (record.get "symbol" (PyVal.str ""))
  let vs ← shareKeys.mapM (fun k => optNumParam (record.get k PyVal.none))
  return { symbol := symbol, quarter_end := qe, vals := vs }

/-- Server-side outcome of one `shareholding_quarterly` INSERT. -/
def shareServerCheck (p : ShareParams) : Option ShareRow := do
  let qe ← p.quarter_end
  let symbol ← varcharVal 20 p.symbol
  let vs ← (shareTypes.zip p.vals).mapM
    (fun tv => serverBindOpt tv.1 tv.2)
  return { symbol := symbol, quarter_end := qe, vals := vs }

/-- `ON CONFLICT (symbol, quarter_end) DO UPDATE`. -/
def upsertShareRow (store : List ShareRow) (row : ShareRow) :
    List ShareRow :=
  store.filter (fun r =>
    !(decide (r.symbol = row.symbol ∧ r.quarter_end = row.quarter_end)))
    ++ [row]

/-- `upsert_shareholding` (timeseries_store.py lines 382-430). -/
def upsert_shareholding (store : List ShareRow) (records : List RawRecord) :
    List ShareRow × Nat :=
  batchUpsert parseShareRecord shareServerCheck upsertShareRow store records

/-- A well-formed price record (applies successfully). -/
def goodPriceRecord : RawRecord :=
  { fields := [("symbol", PyVal.str "TCS"), ("date", PyVal.str "2024-01-05"),
               ("open", PyVal.num 100), ("high", PyVal.num 110),
               ("low", PyVal.num 95), ("close", PyVal.num 105),
               ("volume", PyVal.num 1000)] }

/-- A second well-formed price record. -/
def goodPriceRecord2 : RawRecord :=
  { fields := [("symbol", PyVal.str "INFY"),
               ("date", PyVal.str "2024-01-06"),
               ("close", PyVal.num 1500), ("volume", PyVal.num 2000)] }

/-- A record with no date key at all: `record.get("date")` is `None`, it
is not a string, so it is bound as SQL NULL and the server rejects it
against the NOT NULL key column `date` — inside the shared transaction. -/
def missingDateRecord : RawRecord :=
  { fields := [("symbol", PyVal.str "BAD")] }

/-- A record whose date string does not parse: `strptime` raises
Python-side, before any statement reaches the server. -/
def badDateRecord : RawRecord :=
  { fields := [("symbol", PyVal.str "BAD"),
               ("date", PyVal.str "not-a-date")] }

/-- C2 (demonstration of the code bug at the failing input): in the batch
`[goodPriceRecord, missingDateRecord, goodPriceRecord2]` the record with
the NULL date aborts the shared transaction server-side, the following
well-formed record is skipped, and the COMMIT of the aborted transaction
rolls back the first record's row — `upsert_prices` returns count 1 with
an unchanged (empty) store, where the claim demands the malformed record
skipped in its own sub-transaction, the other two records applied and
count 2.  By contrast a record that fails Python-side (`badDateRecord`)
is skipped cleanly: the other two records apply and the count is 2, as it
also is for the batch of the two well-formed records alone. -/
theorem C2_single_transaction_rollback :
    (upsert_prices [] [goodPriceRecord, missingDateRecord,
        goodPriceRecord2]).2 = 1
    ∧ (upsert_prices [] [goodPriceRecord, missingDateRecord,
        goodPriceRecord2]).1 = []
    ∧ (upsert_prices [] [goodPriceRecord, badDateRecord,
        goodPriceRecord2]).2 = 2
    ∧ (upsert_prices [] [goodPriceRecord, badDateRecord,
        goodPriceRecord2]).1.length = 2
    ∧ (upsert_prices [] [goodPriceRecord, goodPriceRecord2]).2 = 2
    ∧ (upsert_prices [] [goodPriceRecord, goodPriceRecord2]).1.length
      = 2 := by
  decide
end StockPulse
